import Mathlib

/-!
Shallow embedding of the SkillConnect accounts backend
(`projectbackend/backend/accounts/{models.py, views.py}`).

The store is the `User` table: a list of rows, each holding an `email`
(declared `unique=True` in `models.py`) and a plaintext `password`.
The two request handlers are `login_user` and `register_user` from
`views.py`.  `serializers.py` (the `UserSerializer` used by
`register_user`) is not part of the sources; its validation behaviour is
modelled from the spec where noted.
-/

namespace Accounts

/-- A row of the `User` table (`models.py`): an email and a plaintext
password, stored verbatim. -/
structure User where
  email : String
  password : String
deriving DecidableEq, Repr

/-- The user store: the rows of the `User` table, in insertion order. -/
abbrev Store := List User

/-- JSON bodies the two handlers can return. -/
inductive Body where
  /-- `{"success": b}` — login success body. -/
  | success (b : Bool)
  /-- `{"error": msg}` — login failure body. -/
  | error (msg : String)
  /-- `{"message": msg}` — registration success body. -/
  | message (msg : String)
  /-- `serializer.errors` — field name paired with its error messages. -/
  | errors (errs : List (String × List String))
deriving DecidableEq, Repr

/-- An HTTP response: status code and JSON body. -/
structure Response where
  statusCode : Nat
  body : Body
deriving DecidableEq, Repr

/-- `User.objects.get(email=email, password=password)` match predicate.
`request.data.get` yields `none` for a missing field; a `none` value
matches no row (the column is non-nullable, so `email IS NULL` never
holds). -/
def matchesCred (email? password? : Option String) (u : User) : Bool :=
  email? == some u.email && password? == some u.password

/-- The rows the login lookup finds for the given credentials. -/
def getMatches (store : Store) (email? password? : Option String) : List User :=
  store.filter (matchesCred email? password?)

/-- `login_user` (`views.py`).  Reads `email` and `password` from the
request body (absent fields read as `none`), looks up a single row
matching both, and returns `200 {"success": true}` on a match or
`401 {"error": "Invalid email or password"}` on `User.DoesNotExist`.
`MultipleObjectsReturned` is not caught: that uncaught exception is
modelled as `none`. -/
def login_user (store : Store) (email? password? : Option String) :
    Option Response :=
  match getMatches store email? password? with
  | [] => some ⟨401, .error "Invalid email or password"⟩
  | [_] => some ⟨200, .success true⟩
  | _ => none

/-- Modelled from the spec: `serializers.py` is absent from the sources;
the spec requires the registration email to be syntactically valid.
Modelled as: exactly one `@`, with a nonempty local part and a nonempty
domain containing a dot. -/
def validEmailSyntax (e : String) : Bool :=
  let cs := e.data
  let loc := cs.takeWhile (· != '@')
  let dom := (cs.dropWhile (· != '@')).drop 1
  !loc.isEmpty && !dom.isEmpty && dom.contains '.' && !dom.contains '@'

/-- Whether some row of the store already uses this email. -/
def emailTaken (store : Store) (e : String) : Bool :=
  store.any (fun u => u.email == e)

/-- Modelled from the spec: `serializer.is_valid()` for the absent
`UserSerializer` — the email must be syntactically valid and unique
(the model's `unique=True` constraint), the password is unconstrained. -/
def isValidRegistration (store : Store) (e _p : String) : Bool :=
  validEmailSyntax e && !emailTaken store e

/-- Modelled from the spec: the validation errors `register_user`
returns on failure, keyed by field, mirroring the two ways the email
can fail validation. -/
def validationErrors (store : Store) (e : String) :
    List (String × List String) :=
  (if !validEmailSyntax e then
    [("email", ["Enter a valid email address."])] else []) ++
  (if emailTaken store e then
    [("email", ["user with this email already exists."])] else [])

/-- `register_user` (`views.py`).  Validates the request body with the
serializer; on success saves a new `User` row and returns
`201 {"message": ...}`, otherwise returns `400 serializer.errors` and
writes nothing.  Returns the response together with the store after the
request. -/
def register_user (store : Store) (email password : String) :
    Response × Store :=
  if isValidRegistration store email password then
    (⟨201, .message "User registered successfully!"⟩,
      store ++ [⟨email, password⟩])
  else
    (⟨400, .errors (validationErrors store email)⟩, store)

/-- A request against the accounts API. -/
inductive Request where
  | login (email? password? : Option String)
  | register (email password : String)

/-- The store after serving one request: login writes nothing,
registration writes through `register_user`. -/
def applyRequest (store : Store) : Request → Store
  | .login _ _ => store
  | .register e p => (register_user store e p).2

/-- The store invariant from `models.py`: `email` is `unique=True`, so
no two rows share an email. -/
def uniqueEmails (store : Store) : Prop :=
  (store.map User.email).Nodup

instance (store : Store) : Decidable (uniqueEmails store) := by
  unfold uniqueEmails; infer_instance

/-! ### Lemmas about the login lookup -/

lemma matchesCred_some_iff (e p : String) (u : User) :
    matchesCred (some e) (some p) u = true ↔ u.email = e ∧ u.password = p := by
  rw [matchesCred, Bool.and_eq_true, beq_iff_eq, beq_iff_eq,
    Option.some_inj, Option.some_inj]
  exact ⟨fun ⟨h1, h2⟩ => ⟨h1.symm, h2.symm⟩,
    fun ⟨h1, h2⟩ => ⟨h1.symm, h2.symm⟩⟩

lemma mem_getMatches (store : Store) (e p : String) (u : User) :
    u ∈ getMatches store (some e) (some p) ↔
      u ∈ store ∧ u.email = e ∧ u.password = p := by
  simp [getMatches, List.mem_filter, matchesCred_some_iff]

lemma getMatches_eq_nil_iff (store : Store) (e p : String) :
    getMatches store (some e) (some p) = [] ↔
      ∀ u ∈ store, ¬(u.email = e ∧ u.password = p) := by
  constructor
  · intro hnil u hu hup
    have : u ∈ getMatches store (some e) (some p) :=
      (mem_getMatches store e p u).mpr ⟨hu, hup⟩
    simp [hnil] at this
  · intro hall
    rcases hm : getMatches store (some e) (some p) with _ | ⟨u, us⟩
    · rfl
    · have : u ∈ getMatches store (some e) (some p) := by
        rw [hm]; exact List.mem_cons_self u us
      rcases (mem_getMatches store e p u).mp this with ⟨hu, hup⟩
      exact absurd hup (hall u hu)

/-- Under the uniqueness constraint on `email`, the login lookup finds
at most one row, so `MultipleObjectsReturned` is unreachable. -/
lemma getMatches_length_le_one (store : Store) (h : uniqueEmails store)
    (e p : String) : (getMatches store (some e) (some p)).length ≤ 1 := by
  induction store with
  | nil => simp [getMatches]
  | cons u us ih =>
    have hnd : uniqueEmails (u :: us) := h
    rw [uniqueEmails, List.map_cons, List.nodup_cons] at hnd
    rcases hnd with ⟨hnotin, hndtail⟩
    by_cases hc : matchesCred (some e) (some p) u = true
    · have hue : u.email = e := ((matchesCred_some_iff e p u).mp hc).1
      have htail : getMatches us (some e) (some p) = [] := by
        rw [getMatches_eq_nil_iff]
        intro v hv hvp
        apply hnotin
        have hmem := List.mem_map_of_mem User.email hv
        rw [hvp.1] at hmem
        rw [hue]
        exact hmem
      have hcons : getMatches (u :: us) (some e) (some p) =
          u :: getMatches us (some e) (some p) := by
        simp [getMatches, List.filter_cons, hc]
      rw [hcons, htail]
      simp
    · have : getMatches (u :: us) (some e) (some p) =
          getMatches us (some e) (some p) := by
        simp [getMatches, List.filter_cons, hc]
      rw [this]
      exact ih hndtail

lemma matchesCred_none_left (p? : Option String) (u : User) :
    matchesCred none p? u = false := rfl

lemma matchesCred_none_right (e? : Option String) (u : User) :
    matchesCred e? none u = false := by
  cases e? <;> simp [matchesCred]

/-- A missing request field matches no row: the lookup is empty. -/
lemma getMatches_of_none (store : Store) (e? p? : Option String)
    (h : e? = none ∨ p? = none) : getMatches store e? p? = [] := by
  rcases h with h | h <;> subst h
  · simp [getMatches, matchesCred_none_left]
  · simp [getMatches, matchesCred_none_right]

/-! ### Claims about the login handler -/

/-- C1: under the email-uniqueness constraint, the login handler returns
`200 {"success": true}` iff the store has a row whose email and password
both equal the given strings verbatim, and in every other case it
returns `401` with the generic error body. -/
theorem login_success_iff_match (store : Store) (h : uniqueEmails store)
    (e p : String) :
    (login_user store (some e) (some p) = some ⟨200, .success true⟩ ↔
      ∃ u ∈ store, u.email = e ∧ u.password = p) ∧
    ((¬ ∃ u ∈ store, u.email = e ∧ u.password = p) →
      login_user store (some e) (some p) =
        some ⟨401, .error "Invalid email or password"⟩) := by
  rcases hm : getMatches store (some e) (some p) with _ | ⟨u, us⟩
  · have hno := (getMatches_eq_nil_iff store e p).mp hm
    constructor
    · constructor
      · intro habs
        simp [login_user, hm] at habs
      · intro ⟨u, hu, hup⟩
        exact absurd hup (hno u hu)
    · intro _
      simp [login_user, hm]
  · have hlen := getMatches_length_le_one store h e p
    rw [hm] at hlen
    have hus : us = [] := by
      cases us with
      | nil => rfl
      | cons v vs => simp at hlen
    subst hus
    have hu : u ∈ getMatches store (some e) (some p) := by
      rw [hm]; exact List.mem_cons_self u []
    rcases (mem_getMatches store e p u).mp hu with ⟨hus', hprops⟩
    refine ⟨⟨fun _ => ⟨u, hus', hprops⟩, fun _ => ?_⟩, fun hne => ?_⟩
    · simp [login_user, hm]
    · exact absurd ⟨u, hus', hprops⟩ hne

/-- The claim of `login_success_iff_match` at a concrete store and
request. -/
theorem login_success_iff_match_witness :
    (login_user [⟨"a@b.com", "x"⟩] (some "a@b.com") (some "x") =
        some ⟨200, .success true⟩ ↔
      ∃ u ∈ [(⟨"a@b.com", "x"⟩ : User)],
        u.email = "a@b.com" ∧ u.password = "x") ∧
    ((¬ ∃ u ∈ [(⟨"a@b.com", "x"⟩ : User)],
        u.email = "a@b.com" ∧ u.password = "x") →
      login_user [⟨"a@b.com", "x"⟩] (some "a@b.com") (some "x") =
        some ⟨401, .error "Invalid email or password"⟩) :=
  login_success_iff_match [⟨"a@b.com", "x"⟩] (by decide) "a@b.com" "x"

/-- C4: a login with a registered email but wrong password and a login
with an unknown email return the one same `401` generic-error response:
the two failure causes are indistinguishable. -/
theorem login_failures_indistinguishable (store : Store)
    (e1 p1 e2 p2 : String)
    (_h1 : emailTaken store e1 = true)
    (h2 : store.all (fun u => !(u.email == e1 && u.password == p1)) = true)
    (h3 : emailTaken store e2 = false) :
    login_user store (some e1) (some p1) =
      login_user store (some e2) (some p2) ∧
    login_user store (some e1) (some p1) =
      some ⟨401, .error "Invalid email or password"⟩ := by
  have hm1 : getMatches store (some e1) (some p1) = [] := by
    rw [getMatches_eq_nil_iff]
    intro u hu hup
    have hall := List.all_eq_true.mp h2 u hu
    simp [hup.1, hup.2] at hall
  have hm2 : getMatches store (some e2) (some p2) = [] := by
    rw [getMatches_eq_nil_iff]
    intro u hu hup
    have htk : emailTaken store e2 = true := by
      rw [emailTaken, List.any_eq_true]
      exact ⟨u, hu, by simp [hup.1]⟩
    rw [h3] at htk
    exact Bool.noConfusion htk
  exact ⟨by simp [login_user, hm1, hm2], by simp [login_user, hm1]⟩

/-- The claim of `login_failures_indistinguishable` at a concrete store:
wrong password for `a@b.com` versus unknown email `c@d.com`. -/
theorem login_failures_indistinguishable_witness :
    login_user [⟨"a@b.com", "x"⟩] (some "a@b.com") (some "y") =
      login_user [⟨"a@b.com", "x"⟩] (some "c@d.com") (some "x") ∧
    login_user [⟨"a@b.com", "x"⟩] (some "a@b.com") (some "y") =
      some ⟨401, .error "Invalid email or password"⟩ :=
  login_failures_indistinguishable [⟨"a@b.com", "x"⟩]
    "a@b.com" "y" "c@d.com" "x" (by decide) (by decide) (by decide)

/-- C9: a login request missing the email field, the password field, or
both matches no row and yields the same generic `401` response — never a
`400` or a server error. -/
theorem login_missing_field (store : Store) (e? p? : Option String)
    (h : e? = none ∨ p? = none) :
    login_user store e? p? =
      some ⟨401, .error "Invalid email or password"⟩ := by
  simp [login_user, getMatches_of_none store e? p? h]

/-- The claim of `login_missing_field` at a concrete store and request
with the email field absent. -/
theorem login_missing_field_witness :
    login_user [⟨"a@b.com", "x"⟩] none (some "x") =
      some ⟨401, .error "Invalid email or password"⟩ :=
  login_missing_field [⟨"a@b.com", "x"⟩] none (some "x") (Or.inl rfl)

/-- C10: under the email-uniqueness constraint the login handler is
total: the lookup never finds more than one row, so the uncaught
`MultipleObjectsReturned` branch is unreachable and login always
answers `200` or `401`. -/
theorem login_total (store : Store) (h : uniqueEmails store)
    (e? p? : Option String) :
    ∃ r : Response, login_user store e? p? = some r ∧
      (r.statusCode = 200 ∨ r.statusCode = 401) := by
  match e?, p? with
  | none, p? =>
    exact ⟨⟨401, .error "Invalid email or password"⟩,
      by simp [login_user, getMatches_of_none store none p? (Or.inl rfl)],
      Or.inr rfl⟩
  | some e, none =>
    exact ⟨⟨401, .error "Invalid email or password"⟩,
      by simp [login_user,
        getMatches_of_none store (some e) none (Or.inr rfl)],
      Or.inr rfl⟩
  | some e, some p =>
    have hlen := getMatches_length_le_one store h e p
    rcases hm : getMatches store (some e) (some p) with _ | ⟨u, us⟩
    · exact ⟨⟨401, .error "Invalid email or password"⟩,
        by simp [login_user, hm], Or.inr rfl⟩
    · rw [hm] at hlen
      cases us with
      | nil =>
        exact ⟨⟨200, .success true⟩, by simp [login_user, hm], Or.inl rfl⟩
      | cons v vs => simp at hlen

/-- The claim of `login_total` at a concrete store and request. -/
theorem login_total_witness :
    ∃ r : Response,
      login_user [⟨"a@b.com", "x"⟩] (some "a@b.com") (some "y") = some r ∧
      (r.statusCode = 200 ∨ r.statusCode = 401) :=
  login_total [⟨"a@b.com", "x"⟩] (by decide) (some "a@b.com") (some "y")

/-! ### Claims about the registration handler -/

lemma emailTaken_eq_false_iff (store : Store) (e : String) :
    emailTaken store e = false ↔ ∀ u ∈ store, u.email ≠ e := by
  rw [emailTaken]
  constructor
  · intro h u hu he
    have : store.any (fun u => u.email == e) = true := by
      rw [List.any_eq_true]
      exact ⟨u, hu, by simp [he]⟩
    rw [h] at this
    exact Bool.noConfusion this
  · intro h
    cases ha : store.any (fun u => u.email == e)
    · rfl
    · rcases List.any_eq_true.mp ha with ⟨u, hu, hue⟩
      exact absurd (beq_iff_eq.mp hue) (h u hu)

/-- C2 fails as stated: an absent but malformed email is rejected with
`400`, not `201` — here `"not-an-email"` on the empty store. -/
theorem register_fresh_email_counterexample :
    emailTaken [] "not-an-email" = false ∧
    ¬((register_user [] "not-an-email" "x").1.statusCode = 201) := by
  constructor
  · rfl
  · decide

/-- C2 (amended): for a syntactically valid email not present in the
store and any password, registration answers `201` and a subsequent
login with the same pair answers `200 {"success": true}`. -/
theorem register_then_login (store : Store) (e p : String)
    (hv : validEmailSyntax e = true) (hf : emailTaken store e = false) :
    (register_user store e p).1.statusCode = 201 ∧
    login_user (register_user store e p).2 (some e) (some p) =
      some ⟨200, .success true⟩ := by
  have hst : (register_user store e p).2 = store ++ [⟨e, p⟩] := by
    simp [register_user, isValidRegistration, hv, hf]
  have h1 : getMatches store (some e) (some p) = [] := by
    rw [getMatches_eq_nil_iff]
    intro u hu hup
    exact absurd hup.1 ((emailTaken_eq_false_iff store e).mp hf u hu)
  have h2 : getMatches (store ++ [⟨e, p⟩]) (some e) (some p) =
      [⟨e, p⟩] := by
    rw [getMatches, List.filter_append]
    rw [getMatches] at h1
    rw [h1]
    simp [matchesCred]
  refine ⟨by simp [register_user, isValidRegistration, hv, hf], ?_⟩
  rw [hst]
  simp [login_user, h2]

/-- The amended C2 at a concrete input: register `a@b.com`/`x` on the
empty store, then log in with the same pair. -/
theorem register_then_login_witness :
    validEmailSyntax "a@b.com" = true ∧
    emailTaken [] "a@b.com" = false ∧
    ((register_user [] "a@b.com" "x").1.statusCode = 201 ∧
      login_user (register_user [] "a@b.com" "x").2
        (some "a@b.com") (some "x") = some ⟨200, .success true⟩) :=
  ⟨by decide, rfl,
    register_then_login [] "a@b.com" "x" (by decide) rfl⟩

/-- C3: a malformed or already-present email makes registration answer
`400` with the validation errors, and `201` is returned exactly when
validation succeeds. -/
theorem register_validation (store : Store) (e p : String) :
    ((validEmailSyntax e = false ∨ emailTaken store e = true) →
      (register_user store e p).1 =
        ⟨400, .errors (validationErrors store e)⟩) ∧
    ((register_user store e p).1.statusCode = 201 ↔
      validEmailSyntax e = true ∧ emailTaken store e = false) := by
  cases h1 : validEmailSyntax e <;> cases h2 : emailTaken store e <;>
    simp [register_user, isValidRegistration, h1, h2]

/-- The claim of `register_validation` at a concrete input: the
malformed email `"not-an-email"` on the empty store. -/
theorem register_validation_witness :
    ((validEmailSyntax "not-an-email" = false ∨
        emailTaken [] "not-an-email" = true) →
      (register_user [] "not-an-email" "x").1 =
        ⟨400, .errors (validationErrors [] "not-an-email")⟩) ∧
    ((register_user [] "not-an-email" "x").1.statusCode = 201 ↔
      validEmailSyntax "not-an-email" = true ∧
        emailTaken [] "not-an-email" = false) :=
  register_validation [] "not-an-email" "x"

/-- C6: the password is unconstrained — any password string, the empty
string included, registers successfully with a valid, unused email. -/
theorem register_accepts_any_password (store : Store) (e p : String)
    (hv : validEmailSyntax e = true) (hf : emailTaken store e = false) :
    (register_user store e p).1 =
      ⟨201, .message "User registered successfully!"⟩ := by
  simp [register_user, isValidRegistration, hv, hf]

/-- The claim of `register_accepts_any_password` at a concrete input:
the empty password with a fresh valid email. -/
theorem register_accepts_any_password_witness :
    validEmailSyntax "a@b.com" = true ∧
    emailTaken [] "a@b.com" = false ∧
    (register_user [] "a@b.com" "").1 =
      ⟨201, .message "User registered successfully!"⟩ :=
  ⟨by decide, rfl,
    register_accepts_any_password [] "a@b.com" "" (by decide) rfl⟩

/-- C7: login never writes to the store, and a successful registration
only appends one new row, leaving every existing row unchanged. -/
theorem handlers_frame (store : Store) (e? p? : Option String)
    (e p : String)
    (hs : (register_user store e p).1.statusCode = 201) :
    applyRequest store (.login e? p?) = store ∧
    (register_user store e p).2 = store ++ [⟨e, p⟩] := by
  refine ⟨rfl, ?_⟩
  by_cases hv : isValidRegistration store e p = true
  · simp [register_user, hv]
  · exfalso
    simp [register_user, hv] at hs

/-- The claim of `handlers_frame` at a concrete input. -/
theorem handlers_frame_witness :
    (register_user [⟨"a@b.com", "x"⟩] "c@d.com" "y").1.statusCode = 201 ∧
    (applyRequest [⟨"a@b.com", "x"⟩]
        (.login (some "a@b.com") (some "x")) = [⟨"a@b.com", "x"⟩] ∧
      (register_user [⟨"a@b.com", "x"⟩] "c@d.com" "y").2 =
        [⟨"a@b.com", "x"⟩] ++ [⟨"c@d.com", "y"⟩]) :=
  ⟨by decide,
    handlers_frame [⟨"a@b.com", "x"⟩] (some "a@b.com") (some "x")
      "c@d.com" "y" (by decide)⟩

/-- C8: a registration that fails validation with `400` leaves the
store exactly as it was. -/
theorem register_failure_atomic (store : Store) (e p : String)
    (hs : (register_user store e p).1.statusCode = 400) :
    (register_user store e p).2 = store := by
  by_cases hv : isValidRegistration store e p = true
  · exfalso
    simp [register_user, hv] at hs
  · simp [register_user, hv]

/-- The claim of `register_failure_atomic` at a concrete input: a
duplicate email is rejected and the store is unchanged. -/
theorem register_failure_atomic_witness :
    (register_user [⟨"a@b.com", "x"⟩] "a@b.com" "y").1.statusCode = 400 ∧
    (register_user [⟨"a@b.com", "x"⟩] "a@b.com" "y").2 =
      [⟨"a@b.com", "x"⟩] :=
  ⟨by decide,
    register_failure_atomic [⟨"a@b.com", "x"⟩] "a@b.com" "y" (by decide)⟩

/-! ### The store invariant -/

lemma applyRequest_preserves_unique (store : Store) (req : Request)
    (h : uniqueEmails store) : uniqueEmails (applyRequest store req) := by
  cases req with
  | login e? p? => exact h
  | register e p =>
    by_cases hv : isValidRegistration store e p = true
    · have hst : applyRequest store (.register e p) = store ++ [⟨e, p⟩] := by
        simp [applyRequest, register_user, hv]
      have hf : emailTaken store e = false := by
        rw [isValidRegistration, Bool.and_eq_true] at hv
        cases he : emailTaken store e
        · rfl
        · rw [he] at hv
          simp at hv
      rw [hst, uniqueEmails, List.map_append, List.nodup_append]
      refine ⟨h, List.nodup_singleton _, ?_⟩
      intro a ha hb
      simp at hb
      rcases List.mem_map.mp ha with ⟨u, hu, hue⟩
      exact (emailTaken_eq_false_iff store e).mp hf u hu (hue.trans hb)
    · have hst : applyRequest store (.register e p) = store := by
        simp [applyRequest, register_user, hv]
      rw [hst]
      exact h

/-- C5: the empty store has unique emails, and any sequence of login
and register requests starting from a store with unique emails leaves
a store with unique emails. -/
theorem unique_email_invariant (reqs : List Request) (store : Store)
    (h : uniqueEmails store) :
    uniqueEmails ([] : Store) ∧
    uniqueEmails (reqs.foldl applyRequest store) := by
  refine ⟨by simp [uniqueEmails], ?_⟩
  induction reqs generalizing store with
  | nil => exact h
  | cons r rs ih =>
    exact ih (applyRequest store r) (applyRequest_preserves_unique store r h)

/-- The claim of `unique_email_invariant` at a concrete request
sequence, with a duplicate registration attempt in the middle. -/
theorem unique_email_invariant_witness :
    uniqueEmails ([] : Store) ∧
    uniqueEmails
      ([Request.register "a@b.com" "x",
        Request.login (some "a@b.com") (some "x"),
        Request.register "a@b.com" "y",
        Request.register "c@d.com" "z"].foldl applyRequest []) :=
  unique_email_invariant
    [Request.register "a@b.com" "x",
      Request.login (some "a@b.com") (some "x"),
      Request.register "a@b.com" "y",
      Request.register "c@d.com" "z"] [] (by decide)

end Accounts
